import Mathlib

/-!
Shallow embedding of `src/main.py` of the `no-vo` repository: a multi-tenant
FastAPI relay that increments a numeric "Views" property on a Notion database
row.  HTTP and the Notion REST API are modelled by passing each upstream call's
outcome as an explicit argument and recording the calls the handler issues in a
trace list; the process-wide mutable state (`user_configs`,
`total_view_increments`) is threaded explicitly.
-/

namespace NoVo

/-- Outcome of one `requests` call: either a network-level failure
(`requests.RequestException`) or an HTTP response with a status code and an
optional body (`None` models empty `res.content`; when present, the string
stands for the parsed JSON body relayed as the error detail). -/
inductive ReqOutcome where
  | netFail : ReqOutcome
  | resp (status : Nat) (body : Option String) : ReqOutcome
deriving DecidableEq, Repr

/-- Python truthiness of an optional string: `None` and `""` are falsy. -/
def pyTruthy (o : Option String) : Bool :=
  o.getD "" ≠ ""

/-- One Notion page property descriptor, as read from the page JSON: the
`type` tag (`views_prop.get("type")`) and the numeric payload
(`views_prop.get("number")`), both possibly absent. Numbers are modelled as
integers. -/
structure NotionProp where
  type : Option String
  number : Option Int
deriving DecidableEq, Repr

/-- The slice of a Notion page JSON that `increment_views` reads:
`page.get("parent", {}).get("type")`, `...get("database_id")`, and the
property map `page.get("properties", {})` as an ordered association list
(Python dicts preserve insertion order and have unique keys). -/
structure NotionPage where
  parentType : Option String
  parentDatabaseId : Option String
  properties : List (String × NotionProp)
deriving DecidableEq, Repr

/-- One tenant's entry in `user_configs` (src/main.py lines 127-133). -/
structure TenantRecord where
  notion_token : String
  database_id : Option String
  created_at : String
  total_views : Nat
  last_activity : String
deriving DecidableEq, Repr

/-- The process-wide mutable state: the `user_configs` dict (ordered
association list with unique keys) and the `total_view_increments` counter. -/
structure ServerState where
  user_configs : List (String × TenantRecord)
  total_view_increments : Nat
deriving DecidableEq, Repr

/-- Request body of `POST /increment_views` (`PageViewRequest`). -/
structure PageViewRequest where
  page_id : String
  notion_token : Option String := none
  database_id : Option String := none
deriving DecidableEq, Repr

/-- Request body of `POST /register` (`UserConfig`). -/
structure UserConfig where
  notion_token : String
  database_id : Option String := none
  api_key : Option String := none
deriving DecidableEq, Repr

/-- Upstream Notion API calls a handler can issue, in the order issued. -/
inductive UpstreamCall where
  | getUser : UpstreamCall
  | getDatabase (databaseId : String) : UpstreamCall
  | getPage (pageId : String) : UpstreamCall
  | patchPage (pageId : String) (propName : String) (newValue : Int) : UpstreamCall
  | queryDatabase (databaseId : String) (sortProp : String) (direction : String)
      (pageSize : Int) : UpstreamCall
deriving DecidableEq, Repr

/-- Python dict update `d[k] = f(d[k])` for a key assumed present: rewrite the
binding in place, keeping insertion order. -/
def updateDict (l : List (String × TenantRecord)) (k : String)
    (f : TenantRecord → TenantRecord) : List (String × TenantRecord) :=
  l.map fun kv => if kv.1 = k then (kv.1, f kv.2) else kv

/-- Python dict assignment `d[k] = v`: overwrite in place when the key exists,
append at the end otherwise (Python dicts keep insertion order). -/
def insertDict (l : List (String × TenantRecord)) (k : String)
    (v : TenantRecord) : List (String × TenantRecord) :=
  if (l.lookup k).isSome then l.map (fun kv => if kv.1 = k then (kv.1, v) else kv)
  else l ++ [(k, v)]

/-! ### SHA-256 (hashlib.sha256), used by `generate_api_key` -/

/-- UTF-8 encoding of a single code point, as a list of byte values. -/
def utf8Bytes (c : Nat) : List Nat :=
  if c < 0x80 then [c]
  else if c < 0x800 then [0xC0 + c / 64, 0x80 + c % 64]
  else if c < 0x10000 then [0xE0 + c / 4096, 0x80 + c / 64 % 64, 0x80 + c % 64]
  else [0xF0 + c / 262144, 0x80 + c / 4096 % 64, 0x80 + c / 64 % 64, 0x80 + c % 64]

/-- The bytes of `s.encode()` (UTF-8). -/
def strBytes (s : String) : List Nat :=
  (s.data.map fun c => utf8Bytes c.toNat).flatten

/-- Right rotation of a 32-bit word held in a `Nat`. -/
def rotr32 (n x : Nat) : Nat :=
  (x / 2 ^ n + x % 2 ^ n * 2 ^ (32 - n)) % 2 ^ 32

/-- Logical right shift. -/
def shr32 (n x : Nat) : Nat := x / 2 ^ n

def bsig0 (x : Nat) : Nat := rotr32 2 x ^^^ rotr32 13 x ^^^ rotr32 22 x

def bsig1 (x : Nat) : Nat := rotr32 6 x ^^^ rotr32 11 x ^^^ rotr32 25 x

def ssig0 (x : Nat) : Nat := rotr32 7 x ^^^ rotr32 18 x ^^^ shr32 3 x

def ssig1 (x : Nat) : Nat := rotr32 17 x ^^^ rotr32 19 x ^^^ shr32 10 x

def sha256ch (x y z : Nat) : Nat := (x &&& y) ^^^ ((x ^^^ 0xFFFFFFFF) &&& z)

def sha256maj (x y z : Nat) : Nat := (x &&& y) ^^^ (x &&& z) ^^^ (y &&& z)

/-- The 64 SHA-256 round constants (decimal rendering). -/
def sha256K : List Nat :=
  [1116352408, 1899447441, 3049323471, 3921009573, 961987163,
   1508970993, 2453635748, 2870763221, 3624381080, 310598401,
   607225278, 1426881987, 1925078388, 2162078206, 2614888103,
   3248222580, 3835390401, 4022224774, 264347078, 604807628,
   770255983, 1249150122, 1555081692, 1996064986, 2554220882,
   2821834349, 2952996808, 3210313671, 3336571891, 3584528711,
   113926993, 338241895, 666307205, 773529912, 1294757372,
   1396182291, 1695183700, 1986661051, 2177026350, 2456956037,
   2730485921, 2820302411, 3259730800, 3345764771, 3516065817,
   3600352804, 4094571909, 275423344, 430227734, 506948616,
   659060556, 883997877, 958139571, 1322822218, 1537002063,
   1747873779, 1955562222, 2024104815, 2227730452, 2361852424,
   2428436474, 2756734187, 3204031479, 3329325298]

/-- The SHA-256 initial hash state (decimal rendering). -/
def sha256H0 : List Nat :=
  [1779033703, 3144134277, 1013904242, 2773480762, 1359893119,
   2600822924, 528734635, 1541459225]

/-- SHA-256 padding: append `0x80`, zero bytes to 56 mod 64, then the bit
length as an 8-byte big-endian integer. -/
def sha256pad (msg : List Nat) : List Nat :=
  let len := msg.length
  let bitLen := len * 8
  let padZeros := (119 - len % 64) % 64
  msg ++ 0x80 :: List.replicate padZeros 0 ++
    [bitLen / 2 ^ 56 % 256, bitLen / 2 ^ 48 % 256, bitLen / 2 ^ 40 % 256,
     bitLen / 2 ^ 32 % 256, bitLen / 2 ^ 24 % 256, bitLen / 2 ^ 16 % 256,
     bitLen / 2 ^ 8 % 256, bitLen % 256]

/-- Big-endian 32-bit words from a byte list. -/
def bytesToWords : List Nat → List Nat
  | a :: b :: c :: d :: rest =>
      (a * 2 ^ 24 + b * 2 ^ 16 + c * 2 ^ 8 + d) :: bytesToWords rest
  | _ => []

/-- Extend the 16 words of a block by one schedule word `n` times. -/
def extendW (w : List Nat) : Nat → List Nat
  | 0 => w
  | n + 1 =>
      let w := extendW w n
      let i := w.length
      w ++ [(ssig1 (w.getD (i - 2) 0) + w.getD (i - 7) 0 +
             ssig0 (w.getD (i - 15) 0) + w.getD (i - 16) 0) % 2 ^ 32]

/-- The 64-word message schedule of one block. -/
def msgSchedule (w16 : List Nat) : List Nat := extendW w16 48

/-- The SHA-256 compression rounds over the schedule and round constants. -/
def compressLoop : List Nat → List Nat → List Nat → List Nat
  | wt :: ws, kt :: ks, [a, b, c, d, e, f, g, h] =>
      let t1 := (h + bsig1 e + sha256ch e f g + kt + wt) % 2 ^ 32
      let t2 := (bsig0 a + sha256maj a b c) % 2 ^ 32
      compressLoop ws ks [(t1 + t2) % 2 ^ 32, a, b, c, (d + t1) % 2 ^ 32, e, f, g]
  | _, _, st => st

/-- Process one 64-byte block. -/
def processBlock (h : List Nat) (block : List Nat) : List Nat :=
  let st := compressLoop (msgSchedule (bytesToWords block)) sha256K h
  (List.zip h st).map fun p => (p.1 + p.2) % 2 ^ 32

/-- Process `n` consecutive 64-byte blocks. -/
def processN (h : List Nat) (bytes : List Nat) : Nat → List Nat
  | 0 => h
  | n + 1 => processN (processBlock h (bytes.take 64)) (bytes.drop 64) n

def hexDigit (n : Nat) : Char :=
  if n < 10 then Char.ofNat (48 + n) else Char.ofNat (87 + n)

/-- Eight lowercase hex characters of a 32-bit word, most significant first. -/
def hexWord (w : Nat) : List Char :=
  [hexDigit (w / 2 ^ 28 % 16), hexDigit (w / 2 ^ 24 % 16),
   hexDigit (w / 2 ^ 20 % 16), hexDigit (w / 2 ^ 16 % 16),
   hexDigit (w / 2 ^ 12 % 16), hexDigit (w / 2 ^ 8 % 16),
   hexDigit (w / 2 ^ 4 % 16), hexDigit (w % 16)]

/-- `hashlib.sha256(s.encode()).hexdigest()`. -/
def sha256_hexdigest (s : String) : String :=
  let msg := sha256pad (strBytes s)
  let hfin := processN sha256H0 msg (msg.length / 64)
  String.mk ((hfin.map hexWord).flatten)

/-! ### Utility functions of src/main.py -/

/-- src/main.py lines 70-71: `generate_api_key`.  Python interpolates
`f"{notion_token}{time.time()}"`; the textual rendering of `time.time()` at
the moment of the call is passed here as the explicit argument `timeStr`. -/
def generate_api_key (notion_token : String) (timeStr : String) : String :=
  (sha256_hexdigest (notion_token ++ timeStr)).take 16

/-- Python `str.startswith`, modelled on the underlying character list. -/
def startswith (s : String) (pre : String) : Bool :=
  pre.data.isPrefixOf s.data

/-- src/main.py lines 73-74: `validate_notion_token`. -/
def validate_notion_token (token : Option String) : Bool :=
  pyTruthy token &&
    (startswith (token.getD "") "ntn_" || startswith (token.getD "") "secret_")

/-! ### Handlers -/

/-- Outcome of `POST /register`: the issued key, or an `HTTPException`
with its status and detail message. -/
inductive RegisterResult where
  | ok (api_key : String) : RegisterResult
  | httpError (status : Nat) (detail : String) : RegisterResult
deriving DecidableEq, Repr

/-- src/main.py lines 97-153: `register_user`.  `meOut` is the outcome of the
`GET /v1/users/me` token check, `dbOut` the outcome of the optional database
access check (consulted only when a database id is supplied), `now` the
rendering of `datetime.now().isoformat()` and `timeStr` the rendering of
`time.time()` at the moment `generate_api_key` runs.  A non-200 on the
database check is only logged (not fatal); a network-level failure of either
request is caught by `except requests.RequestException` and mapped to 500. -/
def register_user (s : ServerState) (config : UserConfig)
    (meOut : ReqOutcome) (dbOut : ReqOutcome) (now : String) (timeStr : String) :
    RegisterResult × ServerState × List UpstreamCall :=
  if ¬ validate_notion_token (some config.notion_token) then
    (.httpError 400
      "올바른 Notion API 토큰 형식이 아닙니다. (ntn_ 또는 secret_로 시작해야 함)", s, [])
  else
    match meOut with
    | .netFail => (.httpError 500 "Notion API 서버에 연결할 수 없습니다", s, [.getUser])
    | .resp meSt _ =>
      if meSt ≠ 200 then
        (.httpError 400
          ("Notion API 토큰이 유효하지 않습니다. status=" ++ toString meSt), s, [.getUser])
      else
        let dbCalls : List UpstreamCall :=
          if pyTruthy config.database_id then [.getDatabase (config.database_id.getD "")]
          else []
        if pyTruthy config.database_id ∧ dbOut = .netFail then
          (.httpError 500 "Notion API 서버에 연결할 수 없습니다", s, [.getUser] ++ dbCalls)
        else
          let api_key := generate_api_key config.notion_token timeStr
          let record : TenantRecord :=
            { notion_token := config.notion_token
              database_id := config.database_id
              created_at := now
              total_views := 0
              last_activity := now }
          (.ok api_key,
           { s with user_configs := insertDict s.user_configs api_key record },
           [.getUser] ++ dbCalls)

/-- Outcome of `POST /config/database_id`. -/
inductive ConfigResult where
  | ok (database_id : String) : ConfigResult
  | httpError (status : Nat) (detail : String) : ConfigResult
deriving DecidableEq, Repr

/-- src/main.py lines 155-166: `set_database_id`.  Rejects with 401 when the
`X-API-Key` header is missing, empty (Python falsiness) or not a key of
`user_configs`; otherwise stores the database id and refreshes
`last_activity`.  The handler issues no upstream call on any path. -/
def set_database_id (s : ServerState) (database_id : String)
    (x_api_key : Option String) (now : String) :
    ConfigResult × ServerState × List UpstreamCall :=
  if ¬ pyTruthy x_api_key ∨ (s.user_configs.lookup (x_api_key.getD "")).isNone then
    (.httpError 401 "유효한 API 키가 필요합니다", s, [])
  else
    (.ok database_id,
     { s with user_configs := (updateDict s.user_configs (x_api_key.getD "")
        fun r => { r with database_id := some database_id, last_activity := now }) },
     [])

/-- Outcome of `POST /increment_views`: the success body's `page_id`,
`previous_views` and `new_views`, or an `HTTPException`. -/
inductive IncrementResult where
  | ok (page_id : String) (previous_views : Int) (new_views : Int) : IncrementResult
  | httpError (status : Nat) (detail : String) : IncrementResult
deriving DecidableEq, Repr

/-- src/main.py lines 185-263: the body of `increment_views` after
authentication (the `try` block).  `getOut` is the outcome of the page GET
(`page` is what its 200 body parses to), `patchOut` the outcome of the PATCH.
`authedKey` is `some k` exactly when line 241's
`x_api_key and x_api_key in user_configs` is true.  A missing numeric payload
is read as `views_prop.get("number") or 0`, i.e. `None` (and `0`) become 0. -/
def increment_core (s : ServerState) (authedKey : Option String) (page_id : String)
    (getOut : ReqOutcome) (page : NotionPage) (patchOut : ReqOutcome) :
    IncrementResult × ServerState × List UpstreamCall :=
  match getOut with
  | .netFail => (.httpError 500 "Notion API 서버 연결 실패", s, [.getPage page_id])
  | .resp st body =>
    if st ≠ 200 then
      (.httpError st (body.getD "Unknown error"), s, [.getPage page_id])
    else if page.parentType ≠ some "database_id" then
      (.httpError 400 "대상 페이지가 데이터베이스 행이 아닙니다.", s, [.getPage page_id])
    else
      match page.properties.lookup "Views" with
      | none =>
        (.httpError 400
          "Views 속성이 없습니다. 데이터베이스에 Views(Number) 컬럼을 추가해주세요.",
         s, [.getPage page_id])
      | some views_prop =>
        if views_prop.type ≠ some "number" then
          (.httpError 400 "Views 속성은 number 타입이어야 합니다.", s, [.getPage page_id])
        else
          let current := views_prop.number.getD 0
          let new_val := current + 1
          let calls := [UpstreamCall.getPage page_id,
                        UpstreamCall.patchPage page_id "Views" new_val]
          match patchOut with
          | .netFail => (.httpError 500 "Notion API 서버 연결 실패", s, calls)
          | .resp pst pbody =>
            if pst ≠ 200 then
              (.httpError pst (pbody.getD "Update failed"), s, calls)
            else
              let s1 := { s with total_view_increments := s.total_view_increments + 1 }
              let s2 :=
                match authedKey with
                | some k =>
                  { s1 with user_configs := (updateDict s1.user_configs k
                      fun r => { r with total_views := r.total_views + 1 }) }
                | none => s1
              (.ok page_id current new_val, s2, calls)

/-- src/main.py lines 168-263: `increment_views`.  Line 171's
`if x_api_key and x_api_key in user_configs` authenticates by key (updating
`last_activity` immediately); otherwise a truthy inline `data.notion_token`
is the legacy fallback, and with neither the handler raises 401 before any
upstream call. -/
def increment_views (s : ServerState) (data : PageViewRequest)
    (x_api_key : Option String) (now : String)
    (getOut : ReqOutcome) (page : NotionPage) (patchOut : ReqOutcome) :
    IncrementResult × ServerState × List UpstreamCall :=
  if pyTruthy x_api_key ∧ (s.user_configs.lookup (x_api_key.getD "")).isSome then
    let k := x_api_key.getD ""
    let s1 := { s with user_configs := (updateDict s.user_configs k
        fun r => { r with last_activity := now }) }
    increment_core s1 (some k) data.page_id getOut page patchOut
  else if ¬ pyTruthy data.notion_token then
    (.httpError 401 "API 키 또는 Notion 토큰이 필요합니다", s, [])
  else
    increment_core s none data.page_id getOut page patchOut

/-- Outcome of `GET /popular_commands`: the relayed query result body, or an
`HTTPException`. -/
inductive PopularResult where
  | ok (body : String) : PopularResult
  | httpError (status : Nat) (detail : String) : PopularResult
deriving DecidableEq, Repr

/-- src/main.py lines 265-299: `get_popular_commands`.  Unknown or missing
key gives 401 with no upstream call; a missing/empty configured database id
gives 400 with no upstream call; otherwise the database query is issued with
a sort on "Views" descending and `page_size = min(limit, 100)`, relaying a
non-200 and refreshing `last_activity` only on success. -/
def get_popular_commands (s : ServerState) (limit : Int) (x_api_key : Option String)
    (queryOut : ReqOutcome) (now : String) :
    PopularResult × ServerState × List UpstreamCall :=
  if ¬ pyTruthy x_api_key ∨ (s.user_configs.lookup (x_api_key.getD "")).isNone then
    (.httpError 401 "유효한 API 키가 필요합니다", s, [])
  else
    let k := x_api_key.getD ""
    let cfg := ((s.user_configs.lookup k).getD
      { notion_token := "", database_id := none, created_at := ""
        total_views := 0, last_activity := "" })
    if ¬ pyTruthy cfg.database_id then
      (.httpError 400
        "데이터베이스 ID가 없습니다. 등록 시 database_id를 포함하거나 이후 설정하세요.",
       s, [])
    else
      let db := cfg.database_id.getD ""
      let calls := [UpstreamCall.queryDatabase db "Views" "descending" (min limit 100)]
      match queryOut with
      | .netFail => (.httpError 500 "데이터베이스 조회 실패", s, calls)
      | .resp qst qbody =>
        if qst ≠ 200 then
          (.httpError qst (qbody.getD "Query failed"), s, calls)
        else
          (.ok (qbody.getD ""),
           { s with user_configs := (updateDict s.user_configs k
              fun r => { r with last_activity := now }) },
           calls)

/-! ### Page-id normalization (spec-modelled) -/

/-- Lowercase/uppercase hexadecimal digit test. -/
def isHexChar (c : Char) : Bool :=
  ('0' ≤ c && c ≤ '9') || ('a' ≤ c && c ≤ 'f') || ('A' ≤ c && c ≤ 'F')

/-- Remove every dash from a string. -/
def stripDashes (s : String) : String :=
  String.mk (s.data.filter fun c => c ≠ '-')

/-- Insert the canonical UUID dashes (8-4-4-4-12) into a 32-character list. -/
def dashify (l : List Char) : List Char :=
  l.take 8 ++ '-' :: (l.drop 8).take 4 ++ '-' :: (l.drop 12).take 4 ++
    '-' :: (l.drop 16).take 4 ++ '-' :: l.drop 20

/-- Modelled from the spec: the page-id normalization of the documented
variant of `increment_views` (the flow's FETCHING_PAGE step), absent from
src/main.py lines 181-183, which use the raw `page_id`.  Per the spec it
"normalizes a dashless 32-hex-character id into Notion's canonical dashed
UUID form before use" and "fails fast on malformed ids": dashes are dropped,
and the result is accepted exactly when 32 hex characters remain, which are
then regrouped 8-4-4-4-12 with dashes. -/
def normalize_page_id (s : String) : Option String :=
  let t := s.data.filter fun c => c ≠ '-'
  if t.length = 32 ∧ t.all isHexChar then some (String.mk (dashify t))
  else none

/-! ### Concrete fixtures -/

/-- The empty process state right after startup. -/
def emptyState : ServerState := { user_configs := [], total_view_increments := 0 }

/-- A database-row page whose only property is a number named "Counter". -/
def counterPage : NotionPage :=
  { parentType := some "database_id"
    parentDatabaseId := some "db1"
    properties := [("Counter", { type := some "number", number := some 5 })] }

/-- A database-row page with a "Views" number property holding 3 and a text
property "Notes". -/
def viewsPage : NotionPage :=
  { parentType := some "database_id"
    parentDatabaseId := some "db1"
    properties := [("Views", { type := some "number", number := some 3 }),
                   ("Notes", { type := some "rich_text", number := none })] }

/-- A legacy-mode increment request carrying an inline token. -/
def legacyReq : PageViewRequest :=
  { page_id := "p1", notion_token := some "secret_x", database_id := none }

/-- A page whose parent is a workspace, not a database row. -/
def workspacePage : NotionPage :=
  { parentType := some "workspace"
    parentDatabaseId := none
    properties := [] }

/-- A registered tenant with 7 personal increments. -/
def tenant1 : TenantRecord :=
  { notion_token := "ntn_t"
    database_id := none
    created_at := "C"
    total_views := 7
    last_activity := "L" }

/-- A state with one registered tenant and 9 process-wide increments. -/
def state1 : ServerState :=
  { user_configs := [("k1", tenant1)], total_view_increments := 9 }

/-- The fixed detail message raised when the page has no "Views" property. -/
def noViewsMsg : String :=
  "Views 속성이 없습니다. 데이터베이스에 Views(Number) 컬럼을 추가해주세요."

/-! ### Helper lemmas -/

theorem updateDict_total_views (l : List (String × TenantRecord)) (k : String)
    (f : TenantRecord → TenantRecord)
    (hf : ∀ r, (f r).total_views = r.total_views) :
    (updateDict l k f).map (fun kv => (kv.1, kv.2.total_views)) =
      l.map fun kv => (kv.1, kv.2.total_views) := by
  induction l with
  | nil => rfl
  | cons kv t ih =>
      simp only [updateDict, List.map_cons, List.map_map] at *
      by_cases h : kv.1 = k <;> simp [h, hf, ih]

/-- After authentication refreshes `last_activity`, per-tenant `total_views`
values are untouched. -/
theorem updateDict_last_activity (l : List (String × TenantRecord)) (k : String)
    (now : String) :
    (updateDict l k fun r => { r with last_activity := now }).map
        (fun kv => (kv.1, kv.2.total_views)) =
      l.map fun kv => (kv.1, kv.2.total_views) :=
  updateDict_total_views l k _ fun _ => rfl

/-! ### Claims -/

/-- Claim C1, counterexample.  A page whose property map contains exactly one
numeric-typed property, named "Counter" (no candidate-name match), is NOT
resolved to that property by the increment flow: the code demands a property
literally named "Views" and rejects the request with a 400 error, issuing no
PATCH. -/
theorem c1_counterexample :
    (increment_views emptyState legacyReq none "T" (.resp 200 none) counterPage
        (.resp 200 none)).1 = .httpError 400 noViewsMsg ∧
    (increment_views emptyState legacyReq none "T" (.resp 200 none) counterPage
        (.resp 200 none)).2.2 = [UpstreamCall.getPage "p1"] := by
  constructor <;> rfl

/-- A successful lookup names a pair of the association list. -/
theorem mem_of_lookup_some (l : List (String × NotionProp)) (a : String)
    (b : NotionProp) (h : l.lookup a = some b) : (a, b) ∈ l := by
  induction l with
  | nil => cases h
  | cons p t ih =>
      obtain ⟨k, v⟩ := p
      rw [List.lookup_cons] at h
      by_cases hbeq : (a == k) = true
      · have hak : a = k := by simpa using hbeq
        simp only [hbeq] at h
        cases Option.some.inj h
        subst hak
        exact List.mem_cons_self _ _
      · simp only [Bool.not_eq_true] at hbeq
        simp only [hbeq] at h
        exact List.mem_cons_of_mem _ (ih h)

/-- Claim C1, amended: the increment flow performs no heuristic property
resolution.  For every fetched page whose property map contains exactly one
numeric-typed property, under any name other than "Views" and possibly among
arbitrary non-numeric properties, the flow fails with a 400 error — the
"Views missing" message, or the "Views must be number type" message when a
non-numeric property named "Views" is also present — and no PATCH is issued,
instead of that single numeric property being chosen. -/
theorem c1_single_numeric_property_still_rejected
    (s : ServerState) (data : PageViewRequest) (x_api_key : Option String)
    (now : String) (body : Option String) (page : NotionPage)
    (patchOut : ReqOutcome) (nm : String)
    (hauth : (pyTruthy x_api_key ∧
        (s.user_configs.lookup (x_api_key.getD "")).isSome) ∨
      pyTruthy data.notion_token)
    (hone : (page.properties.filter
        fun kv => kv.2.type = some "number").map Prod.fst = [nm])
    (hnm : nm ≠ "Views")
    (hpar : page.parentType = some "database_id") :
    ((increment_views s data x_api_key now (.resp 200 body) page patchOut).1 =
        .httpError 400 noViewsMsg ∨
      (increment_views s data x_api_key now (.resp 200 body) page patchOut).1 =
        .httpError 400 "Views 속성은 number 타입이어야 합니다.") ∧
    ∀ pid pr v, UpstreamCall.patchPage pid pr v ∉
      (increment_views s data x_api_key now (.resp 200 body) page patchOut).2.2 := by
  have hviews : ∀ vp, page.properties.lookup "Views" = some vp →
      vp.type ≠ some "number" := by
    intro vp hlk hty
    have hmem : ("Views", vp) ∈ page.properties :=
      mem_of_lookup_some _ _ _ hlk
    have hmf : ("Views", vp) ∈ page.properties.filter
        (fun kv => kv.2.type = some "number") :=
      List.mem_filter.mpr ⟨hmem, by simp [hty]⟩
    have hmm : "Views" ∈ (page.properties.filter
        (fun kv => kv.2.type = some "number")).map Prod.fst :=
      List.mem_map_of_mem Prod.fst hmf
    rw [hone] at hmm
    have : "Views" = nm := by simpa using hmm
    exact hnm this.symm
  have hcore : ∀ (s2 : ServerState) (ak : Option String),
      ((increment_core s2 ak data.page_id (.resp 200 body) page patchOut).1 =
          .httpError 400 noViewsMsg ∨
        (increment_core s2 ak data.page_id (.resp 200 body) page patchOut).1 =
          .httpError 400 "Views 속성은 number 타입이어야 합니다.") ∧
      ∀ pid pr v, UpstreamCall.patchPage pid pr v ∉
        (increment_core s2 ak data.page_id (.resp 200 body) page patchOut).2.2 := by
    intro s2 ak
    rcases hlk : page.properties.lookup "Views" with _ | vp
    · refine ⟨Or.inl ?_, fun pid pr v => ?_⟩ <;>
        simp [increment_core, hpar, hlk, noViewsMsg]
    · have hty : vp.type ≠ some "number" := hviews vp hlk
      refine ⟨Or.inr ?_, fun pid pr v => ?_⟩ <;>
        simp [increment_core, hpar, hlk, hty]
  unfold increment_views
  by_cases hk : pyTruthy x_api_key ∧ (s.user_configs.lookup (x_api_key.getD "")).isSome
  · simp only [if_pos hk]
    exact hcore _ _
  · rcases hauth with h | h
    · exact absurd h hk
    · simp only [if_neg hk, if_neg (show ¬ ¬ pyTruthy data.notion_token = true by simp [h])]
      exact hcore _ _

/-- Any run of the post-auth increment body either leaves
`total_view_increments` unchanged, or increments it by exactly one, the PATCH
outcome was a 200 response, and the PATCH is in the issued-call trace. -/
theorem increment_core_total_spec (s : ServerState) (ak : Option String)
    (pid : String) (g : ReqOutcome) (pg : NotionPage) (p : ReqOutcome) :
    (increment_core s ak pid g pg p).2.1.total_view_increments =
        s.total_view_increments ∨
      ((increment_core s ak pid g pg p).2.1.total_view_increments =
          s.total_view_increments + 1 ∧
       (∃ b, p = .resp 200 b) ∧
       ∃ v, UpstreamCall.patchPage pid "Views" v ∈
          (increment_core s ak pid g pg p).2.2) := by
  unfold increment_core
  rcases g with _ | ⟨st, body⟩
  · exact Or.inl rfl
  · dsimp only
    split
    · exact Or.inl rfl
    · split
      · exact Or.inl rfl
      · split
        · exact Or.inl rfl
        · rename_i x vp hlk
          split
          · exact Or.inl rfl
          · rcases p with _ | ⟨pst, pbody⟩
            · exact Or.inl rfl
            · dsimp only
              split
              · exact Or.inl rfl
              · rename_i hpst
                right
                refine ⟨?_, ⟨pbody, by simp_all⟩,
                  ⟨vp.number.getD 0 + 1, by simp⟩⟩
                rcases ak with _ | k <;> rfl

/-- Lifting of `increment_core_total_spec` through authentication. -/
theorem increment_views_total_spec (s : ServerState) (data : PageViewRequest)
    (x_api_key : Option String) (now : String) (getOut : ReqOutcome)
    (page : NotionPage) (patchOut : ReqOutcome) :
    (increment_views s data x_api_key now getOut page patchOut).2.1.total_view_increments =
        s.total_view_increments ∨
      ((increment_views s data x_api_key now getOut page patchOut).2.1.total_view_increments =
          s.total_view_increments + 1 ∧
       (∃ b, patchOut = .resp 200 b) ∧
       ∃ v, UpstreamCall.patchPage data.page_id "Views" v ∈
          (increment_views s data x_api_key now getOut page patchOut).2.2) := by
  unfold increment_views
  split
  · exact increment_core_total_spec _ _ _ _ _ _
  · split
    · exact Or.inl rfl
    · exact increment_core_total_spec _ _ _ _ _ _

/-- Claim C2: the process-wide `total_view_increments` counter is monotone —
`increment_views` never decreases it and the other handlers
(`register_user`, `set_database_id`, `get_popular_commands`) leave it
unchanged — and whenever an increment run changes it, it grows by exactly one,
the upstream PATCH returned a confirmed 200 response, and the PATCH was
issued. -/
theorem c2_total_views_monotone (s : ServerState) (data : PageViewRequest)
    (x_api_key : Option String) (now : String) (getOut : ReqOutcome)
    (page : NotionPage) (patchOut : ReqOutcome) (config : UserConfig)
    (meOut dbOut : ReqOutcome) (timeStr : String) (dbid : String)
    (limit : Int) (queryOut : ReqOutcome) :
    s.total_view_increments ≤
      (increment_views s data x_api_key now getOut page patchOut).2.1.total_view_increments ∧
    ((increment_views s data x_api_key now getOut page patchOut).2.1.total_view_increments ≠
        s.total_view_increments →
      (increment_views s data x_api_key now getOut page patchOut).2.1.total_view_increments =
          s.total_view_increments + 1 ∧
      (∃ b, patchOut = .resp 200 b) ∧
      ∃ v, UpstreamCall.patchPage data.page_id "Views" v ∈
        (increment_views s data x_api_key now getOut page patchOut).2.2) ∧
    (register_user s config meOut dbOut now timeStr).2.1.total_view_increments =
      s.total_view_increments ∧
    (set_database_id s dbid x_api_key now).2.1.total_view_increments =
      s.total_view_increments ∧
    (get_popular_commands s limit x_api_key queryOut now).2.1.total_view_increments =
      s.total_view_increments := by
  refine ⟨?_, ?_, ?_, ?_, ?_⟩
  · rcases increment_views_total_spec s data x_api_key now getOut page patchOut with
      h | ⟨h, _⟩ <;> omega
  · intro hne
    rcases increment_views_total_spec s data x_api_key now getOut page patchOut with
      h | ⟨h, hp, hc⟩
    · exact absurd h hne
    · exact ⟨h, hp, hc⟩
  · unfold register_user
    repeat' first | rfl | split
  · unfold set_database_id
    split <;> rfl
  · unfold get_popular_commands
    repeat' first | rfl | split | dsimp only

/-- Claim C2, witness: a concrete successful increment grows the counter by
one, with a 200 PATCH in the trace. -/
theorem c2_witness :
    (increment_views emptyState legacyReq none "T" (.resp 200 none) viewsPage
        (.resp 200 none)).2.1.total_view_increments =
      emptyState.total_view_increments + 1 ∧
    (∃ b, (ReqOutcome.resp 200 none : ReqOutcome) = .resp 200 b) ∧
    ∃ v, UpstreamCall.patchPage legacyReq.page_id "Views" v ∈
      (increment_views emptyState legacyReq none "T" (.resp 200 none) viewsPage
        (.resp 200 none)).2.2 :=
  (c2_total_views_monotone emptyState legacyReq none "T" (.resp 200 none)
      viewsPage (.resp 200 none) { notion_token := "ntn_x" } (.resp 200 none)
      (.resp 200 none) "TS" "db" 5 (.resp 200 none)).2.1 (by decide)

/-- A database-row page holding a "Counter" number property and a "Notes"
text property: exactly one numeric property, among a non-numeric one. -/
def counterNotesPage : NotionPage :=
  { parentType := some "database_id"
    parentDatabaseId := some "db1"
    properties := [("Counter", { type := some "number", number := some 5 }),
                   ("Notes", { type := some "rich_text", number := none })] }

/-- Claim C1, witness for the amended theorem: a page holding exactly one
numeric property "Counter" next to a text property "Notes" is rejected with a
400 error and no PATCH. -/
theorem c1_witness :
    ((increment_views emptyState legacyReq none "T" (.resp 200 none)
        counterNotesPage (.resp 200 none)).1 = .httpError 400 noViewsMsg ∨
      (increment_views emptyState legacyReq none "T" (.resp 200 none)
        counterNotesPage (.resp 200 none)).1 =
        .httpError 400 "Views 속성은 number 타입이어야 합니다.") ∧
    ∀ pid pr v, UpstreamCall.patchPage pid pr v ∉
      (increment_views emptyState legacyReq none "T" (.resp 200 none)
        counterNotesPage (.resp 200 none)).2.2 :=
  c1_single_numeric_property_still_rejected emptyState legacyReq none "T" none
    counterNotesPage (.resp 200 none) "Counter" (Or.inr (by decide))
    (by decide) (by decide) rfl

/-- Claim C3: every successful increment returns `new_views` equal to the
page's current "Views" number (a null payload read as 0) plus one,
`previous_views` equal to that current value, and the value PATCHed upstream
is exactly the returned `new_views`. -/
theorem c3_success_increments_by_one (s : ServerState) (data : PageViewRequest)
    (x_api_key : Option String) (now : String) (getOut : ReqOutcome)
    (page : NotionPage) (patchOut : ReqOutcome) (pid : String)
    (prev new : Int) (s2 : ServerState) (calls : List UpstreamCall)
    (h : increment_views s data x_api_key now getOut page patchOut =
      (.ok pid prev new, s2, calls)) :
    new = prev + 1 ∧
    (∃ vp, page.properties.lookup "Views" = some vp ∧
      vp.type = some "number" ∧ prev = vp.number.getD 0) ∧
    pid = data.page_id ∧
    UpstreamCall.patchPage data.page_id "Views" new ∈ calls := by
  unfold increment_views increment_core at h
  repeat' first | (split at h) | (dsimp only at h)
  all_goals simp_all [Prod.ext_iff]
  all_goals
    rcases h with ⟨⟨hpid, hprev, hnew⟩, hs2, hcalls⟩
  all_goals
    subst hpid hprev hnew hcalls
  all_goals exact ⟨rfl, by simp⟩

/-- Claim C3, witness: a "Views" number property holding 3 yields
previous=3, new=4, and PATCHes 4. -/
theorem c3_witness :
    (4 : Int) = 3 + 1 ∧
    (∃ vp, viewsPage.properties.lookup "Views" = some vp ∧
      vp.type = some "number" ∧ (3 : Int) = vp.number.getD 0) ∧
    "p1" = legacyReq.page_id ∧
    UpstreamCall.patchPage legacyReq.page_id "Views" 4 ∈
      [UpstreamCall.getPage "p1", UpstreamCall.patchPage "p1" "Views" 4] :=
  c3_success_increments_by_one emptyState legacyReq none "T" (.resp 200 none)
    viewsPage (.resp 200 none) "p1" 3 4
    { user_configs := [], total_view_increments := 1 }
    [UpstreamCall.getPage "p1", UpstreamCall.patchPage "p1" "Views" 4] (by rfl)

/-- Claim C4, counterexample.  An increment request carrying the API key
"deadbeef", absent from the (empty) tenant registry, does NOT fail with 401:
because the body carries an inline `notion_token`, the legacy fallback
proceeds, upstream GET and PATCH calls are performed, and the request
succeeds. -/
theorem c4_counterexample :
    (increment_views emptyState legacyReq (some "deadbeef") "T" (.resp 200 none)
        viewsPage (.resp 200 none)).1 = .ok "p1" 3 4 ∧
    (increment_views emptyState legacyReq (some "deadbeef") "T" (.resp 200 none)
        viewsPage (.resp 200 none)).2.2 =
      [UpstreamCall.getPage "p1", UpstreamCall.patchPage "p1" "Views" 4] := by
  constructor <;> rfl

/-- Claim C4, amended: for an API key not present in the registry, the
popular-commands and database-id-config endpoints always fail with 401 and
perform no upstream call; the increment endpoint does so only when the
request body carries no truthy inline `notion_token` (otherwise the legacy
fallback path proceeds with the inline token). -/
theorem c4_unknown_key_behaviour (s : ServerState) (k : String)
    (data : PageViewRequest) (now : String) (getOut : ReqOutcome)
    (page : NotionPage) (patchOut : ReqOutcome) (dbid : String)
    (limit : Int) (queryOut : ReqOutcome)
    (hk : (s.user_configs.lookup k).isNone) :
    ((get_popular_commands s limit (some k) queryOut now).1 =
        .httpError 401 "유효한 API 키가 필요합니다" ∧
      (get_popular_commands s limit (some k) queryOut now).2.1 = s ∧
      (get_popular_commands s limit (some k) queryOut now).2.2 = []) ∧
    ((set_database_id s dbid (some k) now).1 =
        .httpError 401 "유효한 API 키가 필요합니다" ∧
      (set_database_id s dbid (some k) now).2.1 = s ∧
      (set_database_id s dbid (some k) now).2.2 = []) ∧
    (¬ pyTruthy data.notion_token →
      (increment_views s data (some k) now getOut page patchOut).1 =
        .httpError 401 "API 키 또는 Notion 토큰이 필요합니다" ∧
      (increment_views s data (some k) now getOut page patchOut).2.1 = s ∧
      (increment_views s data (some k) now getOut page patchOut).2.2 = []) := by
  have hs : s.user_configs.lookup k = none := Option.isNone_iff_eq_none.mp hk
  refine ⟨?_, ?_, ?_⟩
  · simp [get_popular_commands, hs]
  · simp [set_database_id, hs]
  · intro ht
    simp [increment_views, hs, ht]

/-- Claim C4, witness for the amended theorem at a concrete unknown key. -/
theorem c4_witness :
    ((get_popular_commands emptyState 10 (some "deadbeef") (.resp 200 none)
        "T").1 = .httpError 401 "유효한 API 키가 필요합니다" ∧
      (get_popular_commands emptyState 10 (some "deadbeef") (.resp 200 none)
        "T").2.1 = emptyState ∧
      (get_popular_commands emptyState 10 (some "deadbeef") (.resp 200 none)
        "T").2.2 = []) ∧
    ((set_database_id emptyState "db1" (some "deadbeef") "T").1 =
        .httpError 401 "유효한 API 키가 필요합니다" ∧
      (set_database_id emptyState "db1" (some "deadbeef") "T").2.1 = emptyState ∧
      (set_database_id emptyState "db1" (some "deadbeef") "T").2.2 = []) ∧
    (¬ pyTruthy ({ page_id := "p1" } : PageViewRequest).notion_token →
      (increment_views emptyState { page_id := "p1" } (some "deadbeef") "T"
        (.resp 200 none) viewsPage (.resp 200 none)).1 =
        .httpError 401 "API 키 또는 Notion 토큰이 필요합니다" ∧
      (increment_views emptyState { page_id := "p1" } (some "deadbeef") "T"
        (.resp 200 none) viewsPage (.resp 200 none)).2.1 = emptyState ∧
      (increment_views emptyState { page_id := "p1" } (some "deadbeef") "T"
        (.resp 200 none) viewsPage (.resp 200 none)).2.2 = []) :=
  c4_unknown_key_behaviour emptyState "deadbeef" { page_id := "p1" } "T"
    (.resp 200 none) viewsPage (.resp 200 none) "db1" 10 (.resp 200 none)
    (by decide)

/-- Claim C5: when the fetched page's parent is not a database row, the
increment flow fails with the 400 validation error and no PATCH is ever
issued for the request. -/
theorem c5_non_database_parent_rejected (s : ServerState)
    (data : PageViewRequest) (x_api_key : Option String) (now : String)
    (body : Option String) (page : NotionPage) (patchOut : ReqOutcome)
    (hauth : (pyTruthy x_api_key ∧
        (s.user_configs.lookup (x_api_key.getD "")).isSome) ∨
      pyTruthy data.notion_token)
    (hpar : page.parentType ≠ some "database_id") :
    (increment_views s data x_api_key now (.resp 200 body) page patchOut).1 =
      .httpError 400 "대상 페이지가 데이터베이스 행이 아닙니다." ∧
    ∀ pid pr v, UpstreamCall.patchPage pid pr v ∉
      (increment_views s data x_api_key now (.resp 200 body) page patchOut).2.2 := by
  unfold increment_views
  by_cases hk : pyTruthy x_api_key ∧ (s.user_configs.lookup (x_api_key.getD "")).isSome
  · simp only [if_pos hk]
    simp [increment_core, hpar]
  · rcases hauth with h | h
    · exact absurd h hk
    · simp only [if_neg hk]
      simp [h, increment_core, hpar]

/-- Claim C5, witness: a page whose parent is a workspace is rejected with
400 and no PATCH appears in the call trace. -/
theorem c5_witness :
    (increment_views emptyState legacyReq none "T" (.resp 200 none)
      workspacePage (.resp 200 none)).1 =
      .httpError 400 "대상 페이지가 데이터베이스 행이 아닙니다." ∧
    ∀ pid pr v, UpstreamCall.patchPage pid pr v ∉
      (increment_views emptyState legacyReq none "T" (.resp 200 none)
        workspacePage (.resp 200 none)).2.2 :=
  c5_non_database_parent_rejected emptyState legacyReq none "T" none
    workspacePage (.resp 200 none) (Or.inr (by decide)) (by decide)

/-- Claim C6: a non-200 upstream page read aborts the request, relaying the
upstream status and body, and leaves every stored counter — the process-wide
`total_view_increments` and each tenant's `total_views` — unchanged: no local
counter mutation happens before the remote write succeeds. -/
theorem c6_failed_read_leaves_counters (s : ServerState)
    (data : PageViewRequest) (x_api_key : Option String) (now : String)
    (st : Nat) (body : Option String) (page : NotionPage)
    (patchOut : ReqOutcome)
    (hauth : (pyTruthy x_api_key ∧
        (s.user_configs.lookup (x_api_key.getD "")).isSome) ∨
      pyTruthy data.notion_token)
    (hst : st ≠ 200) :
    (increment_views s data x_api_key now (.resp st body) page patchOut).1 =
      .httpError st (body.getD "Unknown error") ∧
    (increment_views s data x_api_key now (.resp st body) page
        patchOut).2.1.total_view_increments = s.total_view_increments ∧
    (increment_views s data x_api_key now (.resp st body) page
        patchOut).2.1.user_configs.map (fun kv => (kv.1, kv.2.total_views)) =
      s.user_configs.map fun kv => (kv.1, kv.2.total_views) := by
  unfold increment_views
  by_cases hk : pyTruthy x_api_key ∧ (s.user_configs.lookup (x_api_key.getD "")).isSome
  · simp only [if_pos hk]
    simp [increment_core, hst, updateDict_last_activity]
  · rcases hauth with h | h
    · exact absurd h hk
    · simp only [if_neg hk]
      simp [h, increment_core, hst]

/-- Claim C6, witness: a 404 page read relays the 404 and leaves the one
registered tenant's counter and the process total untouched. -/
theorem c6_witness :
    (increment_views state1 { page_id := "p1" } (some "k1") "T"
        (.resp 404 (some "nf")) viewsPage (.resp 200 none)).1 =
      .httpError 404 ((some "nf").getD "Unknown error") ∧
    (increment_views state1 { page_id := "p1" } (some "k1") "T"
        (.resp 404 (some "nf")) viewsPage
        (.resp 200 none)).2.1.total_view_increments =
      state1.total_view_increments ∧
    (increment_views state1 { page_id := "p1" } (some "k1") "T"
        (.resp 404 (some "nf")) viewsPage
        (.resp 200 none)).2.1.user_configs.map
        (fun kv => (kv.1, kv.2.total_views)) =
      state1.user_configs.map fun kv => (kv.1, kv.2.total_views) :=
  c6_failed_read_leaves_counters state1 { page_id := "p1" } (some "k1") "T"
    404 (some "nf") viewsPage (.resp 200 none) (Or.inl (by decide)) (by decide)

/-- A database-row page whose only property is the text property "Notes". -/
def notesPage : NotionPage :=
  { parentType := some "database_id"
    parentDatabaseId := some "db1"
    properties := [("Notes", { type := some "rich_text", number := none })] }

/-- A database-row page whose only property is the select property "Tags". -/
def tagsPage : NotionPage :=
  { parentType := some "database_id"
    parentDatabaseId := some "db1"
    properties := [("Tags", { type := some "multi_select", number := none })] }

/-- Claim C7, counterexample.  A page with no usable numeric counter property
is rejected with a FIXED 400 message: the identical detail string is produced
for a page whose only property is "Notes" and for one whose only property is
"Tags", and neither name occurs anywhere in that string — the error does not
enumerate the property names available on the page. -/
theorem c7_counterexample :
    (increment_views emptyState legacyReq none "T" (.resp 200 none) notesPage
        (.resp 200 none)).1 = .httpError 400 noViewsMsg ∧
    (increment_views emptyState legacyReq none "T" (.resp 200 none) tagsPage
        (.resp 200 none)).1 = .httpError 400 noViewsMsg ∧
    ¬ ("Notes".data <:+: noViewsMsg.data) ∧
    ¬ ("Tags".data <:+: noViewsMsg.data) := by
  refine ⟨rfl, rfl, ?_, ?_⟩ <;> decide

/-- Claim C7, amended: when the fetched page has no property literally named
"Views" (in particular when no numeric property exists at all), the request
is rejected with a 400 "no Views property" error whose detail is the fixed
string `noViewsMsg`, independent of the page's property map — the message
does not enumerate the available property names. -/
theorem c7_no_counter_fixed_message (s : ServerState) (data : PageViewRequest)
    (x_api_key : Option String) (now : String) (body : Option String)
    (page : NotionPage) (patchOut : ReqOutcome)
    (hauth : (pyTruthy x_api_key ∧
        (s.user_configs.lookup (x_api_key.getD "")).isSome) ∨
      pyTruthy data.notion_token)
    (hpar : page.parentType = some "database_id")
    (hlook : page.properties.lookup "Views" = none) :
    (increment_views s data x_api_key now (.resp 200 body) page patchOut).1 =
      .httpError 400 noViewsMsg ∧
    ∀ pid pr v, UpstreamCall.patchPage pid pr v ∉
      (increment_views s data x_api_key now (.resp 200 body) page patchOut).2.2 := by
  unfold increment_views
  by_cases hk : pyTruthy x_api_key ∧ (s.user_configs.lookup (x_api_key.getD "")).isSome
  · simp only [if_pos hk]
    simp [increment_core, hpar, hlook, noViewsMsg]
  · rcases hauth with h | h
    · exact absurd h hk
    · simp only [if_neg hk]
      simp [h, increment_core, hpar, hlook, noViewsMsg]

/-- Claim C7, witness for the amended theorem at a concrete input. -/
theorem c7_witness :
    (increment_views emptyState legacyReq none "T" (.resp 200 none) notesPage
        (.resp 200 none)).1 = .httpError 400 noViewsMsg ∧
    ∀ pid pr v, UpstreamCall.patchPage pid pr v ∉
      (increment_views emptyState legacyReq none "T" (.resp 200 none) notesPage
        (.resp 200 none)).2.2 :=
  c7_no_counter_fixed_message emptyState legacyReq none "T" none notesPage
    (.resp 200 none) (Or.inr (by decide)) rfl rfl

/-- A registration request used to exhibit key reuse. -/
def c8Config : UserConfig := { notion_token := "ntn_tok" }

/-- The state after one successful registration of `c8Config` with
`time.time()` rendered as "1700000000.0", starting from the empty state. -/
def c8State : ServerState :=
  (register_user emptyState c8Config (.resp 200 none) (.resp 200 none) "T"
    "1700000000.0").2.1

set_option maxRecDepth 100000 in
/-- Claim C8, counterexample.  `generate_api_key` is a deterministic digest
of token and timestamp, and `register_user` performs no uniqueness check: a
second registration with the same token while `time.time()` renders to the
same string returns an API key that is ALREADY present in the tenant
registry, and overwrites the existing tenant's record instead of minting a
fresh key (the registry still holds a single record afterwards). -/
theorem c8_counterexample :
    (register_user c8State c8Config (.resp 200 none) (.resp 200 none) "T2"
        "1700000000.0").1 =
      .ok (generate_api_key "ntn_tok" "1700000000.0") ∧
    (c8State.user_configs.lookup
      (generate_api_key "ntn_tok" "1700000000.0")).isSome = true ∧
    c8State.user_configs.length = 1 ∧
    (register_user c8State c8Config (.resp 200 none) (.resp 200 none) "T2"
        "1700000000.0").2.1.user_configs.length = 1 := by
  decide

/-- Keys absent from a lookup differ from every stored key. -/
theorem lookup_none_forall (l : List (String × TenantRecord)) (k : String)
    (h : l.lookup k = none) : ∀ kv ∈ l, kv.1 ≠ k := by
  induction l with
  | nil => intro kv hkv; cases hkv
  | cons p t ih =>
      intro kv hkv
      obtain ⟨a, b⟩ := p
      rw [List.lookup_cons] at h
      by_cases hbeq : k == a
      · simp [hbeq] at h
      · simp only [hbeq] at h
        rcases List.mem_cons.mp hkv with rfl | hkv2
        · intro hc
          have ha : a = k := hc
          exact hbeq (by simp [ha])
        · exact ih h kv hkv2

/-- Claim C8, amended: registration derives the API key deterministically as
the first 16 hex characters of sha256(token ++ timestamp) and performs no
uniqueness check.  Provided the derived digest is not already a registry key
(the code relies on timestamp/hash freshness for this, it does not enforce
it), the returned key is fresh and previously unissued — it differs from every
key already present — and a new TenantRecord is appended with all existing
records left in place; a registration repeating an earlier (token, timestamp)
pair instead reproduces that key and overwrites the record. -/
theorem c8_fresh_key_when_digest_unused (s : ServerState) (config : UserConfig)
    (meBody : Option String) (dbOut : ReqOutcome) (now timeStr : String)
    (hval : validate_notion_token (some config.notion_token) = true)
    (hdb : ¬ (pyTruthy config.database_id = true ∧ dbOut = ReqOutcome.netFail))
    (hfresh : s.user_configs.lookup
      (generate_api_key config.notion_token timeStr) = none) :
    (register_user s config (.resp 200 meBody) dbOut now timeStr).1 =
      .ok (generate_api_key config.notion_token timeStr) ∧
    (∀ kv ∈ s.user_configs,
      kv.1 ≠ generate_api_key config.notion_token timeStr) ∧
    (register_user s config (.resp 200 meBody) dbOut now
        timeStr).2.1.user_configs =
      s.user_configs ++ [(generate_api_key config.notion_token timeStr,
        { notion_token := config.notion_token
          database_id := config.database_id
          created_at := now
          total_views := 0
          last_activity := now })] := by
  have hins : insertDict s.user_configs
      (generate_api_key config.notion_token timeStr)
      { notion_token := config.notion_token
        database_id := config.database_id
        created_at := now
        total_views := 0
        last_activity := now } =
      s.user_configs ++ [(generate_api_key config.notion_token timeStr,
        { notion_token := config.notion_token
          database_id := config.database_id
          created_at := now
          total_views := 0
          last_activity := now })] := by
    unfold insertDict
    rw [hfresh]
    rfl
  refine ⟨?_, lookup_none_forall _ _ hfresh, ?_⟩ <;>
    · unfold register_user
      split
      · rename_i hcontra
        exact absurd hval hcontra
      · dsimp only
        split
        · rename_i h200
          exact absurd rfl h200
        · simp only [if_neg hdb]
          try simp [hins]

/-- Claim C8, witness: registering a valid token into the empty registry
returns the derived key, vacuously fresh, and appends the one record. -/
theorem c8_witness :
    (register_user emptyState c8Config (.resp 200 none) (.resp 200 none) "T"
        "1700000000.0").1 =
      .ok (generate_api_key "ntn_tok" "1700000000.0") ∧
    (∀ kv ∈ emptyState.user_configs,
      kv.1 ≠ generate_api_key "ntn_tok" "1700000000.0") ∧
    (register_user emptyState c8Config (.resp 200 none) (.resp 200 none) "T"
        "1700000000.0").2.1.user_configs =
      emptyState.user_configs ++ [(generate_api_key "ntn_tok" "1700000000.0",
        { notion_token := "ntn_tok"
          database_id := none
          created_at := "T"
          total_views := 0
          last_activity := "T" })] :=
  c8_fresh_key_when_digest_unused emptyState c8Config none (.resp 200 none)
    "T" "1700000000.0" (by decide) (by decide) rfl

/-- Hex characters are never the dash. -/
theorem isHexChar_ne_dash (c : Char) (h : isHexChar c = true) : c ≠ '-' := by
  intro hc
  subst hc
  exact absurd h (by decide)

/-- Filtering dashes out of an all-hex character list is the identity. -/
theorem filter_hex_no_dash (l : List Char) (h : l.all isHexChar = true) :
    l.filter (fun c => c ≠ '-') = l := by
  apply List.filter_eq_self.mpr
  intro a ha
  exact decide_eq_true (isHexChar_ne_dash a (List.all_eq_true.mp h a ha))

/-- The 8-4-4-4-12 segments of a list reassemble to the list itself. -/
theorem dashify_segments (l : List Char) :
    l.take 8 ++ ((l.drop 8).take 4 ++ ((l.drop 12).take 4 ++
      ((l.drop 16).take 4 ++ l.drop 20))) = l := by
  conv_rhs => rw [← List.take_append_drop 20 l,
    show (20 : ℕ) = 16 + 4 by rfl, List.take_add,
    show (16 : ℕ) = 12 + 4 by rfl, List.take_add,
    show (12 : ℕ) = 8 + 4 by rfl, List.take_add]
  simp [List.append_assoc]

/-- Stripping the inserted dashes back out of `dashify l` recovers `l` when
`l` is all hex (so it contains no dash of its own). -/
theorem filter_dashify (l : List Char) (h : l.all isHexChar = true) :
    (dashify l).filter (fun c => c ≠ '-') = l := by
  have hmem : ∀ a ∈ l, (fun c => decide (c ≠ '-')) a = true := fun a ha =>
    decide_eq_true (isHexChar_ne_dash a (List.all_eq_true.mp h a ha))
  have hseg : ∀ (sub : List Char), sub ⊆ l →
      sub.filter (fun c => c ≠ '-') = sub := fun sub hsub =>
    List.filter_eq_self.mpr fun a ha => hmem a (hsub ha)
  have hconsd : ∀ (t : List Char),
      List.filter (fun c => decide (c ≠ '-')) ('-' :: t) =
        List.filter (fun c => decide (c ≠ '-')) t := fun t =>
    List.filter_cons_of_neg (by decide)
  unfold dashify
  simp only [List.filter_append, hconsd]
  rw [hseg _ (List.take_subset 8 l),
    hseg _ (fun a ha => List.drop_subset 8 l (List.take_subset 4 _ ha)),
    hseg _ (fun a ha => List.drop_subset 12 l (List.take_subset 4 _ ha)),
    hseg _ (fun a ha => List.drop_subset 16 l (List.take_subset 4 _ ha)),
    hseg _ (List.drop_subset 20 l)]
  simpa [List.append_assoc] using dashify_segments l

/-- Rebuilding a string from its own character list is the identity. -/
theorem string_mk_data (s : String) : String.mk s.data = s := rfl

/-- Claim C9: page-id normalization round-trips.  For every 32-character hex
page id (the dashless form), normalization accepts it and produces the
canonical dashed UUID form `dashify`; stripping the dashes from that
canonical form gives back the dashless id, and normalizing the canonical
dashed form reproduces it unchanged.  Every string whose dash-free form has a
length other than 32 fails validation (`none`). -/
theorem c9_normalize_round_trip (s : String)
    (hlen : s.data.length = 32) (hhex : s.data.all isHexChar = true) :
    normalize_page_id s = some (String.mk (dashify s.data)) ∧
    stripDashes (String.mk (dashify s.data)) = s ∧
    normalize_page_id (String.mk (dashify s.data)) =
      some (String.mk (dashify s.data)) ∧
    ∀ t : String, (stripDashes t).data.length ≠ 32 →
      normalize_page_id t = none := by
  have hfilter : s.data.filter (fun c => c ≠ '-') = s.data :=
    filter_hex_no_dash s.data hhex
  have hdfilter : (dashify s.data).filter (fun c => c ≠ '-') = s.data :=
    filter_dashify s.data hhex
  refine ⟨?_, ?_, ?_, ?_⟩
  · unfold normalize_page_id
    rw [hfilter, if_pos ⟨hlen, hhex⟩]
  · unfold stripDashes
    show String.mk ((dashify s.data).filter (fun c => c ≠ '-')) = s
    rw [hdfilter]
  · unfold normalize_page_id
    dsimp only
    rw [hdfilter, if_pos ⟨hlen, hhex⟩]
  · intro t hlt
    unfold normalize_page_id
    rw [if_neg]
    intro hc
    exact hlt (by simpa [stripDashes] using hc.1)

/-- Claim C9, witness: a concrete 32-hex dashless id normalizes to its dashed
UUID form and back. -/
theorem c9_witness :
    normalize_page_id "0123456789abcdef0123456789abcdef" =
      some (String.mk (dashify "0123456789abcdef0123456789abcdef".data)) ∧
    stripDashes (String.mk (dashify "0123456789abcdef0123456789abcdef".data)) =
      "0123456789abcdef0123456789abcdef" ∧
    normalize_page_id
        (String.mk (dashify "0123456789abcdef0123456789abcdef".data)) =
      some (String.mk (dashify "0123456789abcdef0123456789abcdef".data)) ∧
    ∀ t : String, (stripDashes t).data.length ≠ 32 →
      normalize_page_id t = none :=
  c9_normalize_round_trip "0123456789abcdef0123456789abcdef" (by decide)
    (by decide)

/-- A registered tenant with a configured target database. -/
def tenant2 : TenantRecord :=
  { notion_token := "secret_t"
    database_id := some "db9"
    created_at := "C"
    total_views := 2
    last_activity := "L" }

/-- A state holding `tenant2` under the key "k2". -/
def state2 : ServerState :=
  { user_configs := [("k2", tenant2)], total_view_increments := 4 }

/-- Claim C10: for every authenticated popular-commands request with a
configured database id, the database query is issued with
`page_size = min(limit, 100)` (sorted on "Views" descending); in particular a
limit above 100 is silently clamped to 100. -/
theorem c10_page_size_clamped (s : ServerState) (limit : Int) (k : String)
    (queryOut : ReqOutcome) (now : String) (cfg : TenantRecord) (db : String)
    (hk : pyTruthy (some k) = true)
    (hcfg : s.user_configs.lookup k = some cfg)
    (hdb : cfg.database_id = some db)
    (hdbt : pyTruthy (some db) = true) :
    (get_popular_commands s limit (some k) queryOut now).2.2 =
      [UpstreamCall.queryDatabase db "Views" "descending" (min limit 100)] ∧
    (100 < limit → min limit 100 = 100) := by
  constructor
  · unfold get_popular_commands
    rw [if_neg (by simp [hk, hcfg])]
    simp only [Option.getD_some, hcfg, hdb]
    rw [if_neg (by simp [hdbt])]
    rcases queryOut with _ | ⟨qst, qbody⟩
    · rfl
    · repeat' first | rfl | split
  · intro h
    exact min_eq_right h.le

/-- Claim C10, witness: a request with limit 250 queries with page_size 100. -/
theorem c10_witness :
    (get_popular_commands state2 250 (some "k2") (.resp 200 (some "B"))
        "T").2.2 =
      [UpstreamCall.queryDatabase "db9" "Views" "descending" (min 250 100)] ∧
    ((100 : Int) < 250 → min (250 : Int) 100 = 100) :=
  c10_page_size_clamped state2 250 "k2" (.resp 200 (some "B")) "T" tenant2
    "db9" (by decide) rfl rfl (by decide)

end NoVo
